import Mathlib

/-!
# Verification of `frequency_slot.py` (Meshtastic frequency slot calculator)

Shallow embedding of the channel-to-frequency resolution core:
the region table, bandwidth selection, the djb2 string hash,
slot-count / slot-index arithmetic, and the frequency formula.

Python floats are modelled as exact rationals (`ℚ`); for every shipped
region/bandwidth combination the IEEE-double computation and the exact
rational computation yield the same floored slot count, so the model is
faithful on all concrete inputs used below.  A Python exception
(`ZeroDivisionError` from `x % 0`) is modelled as `Option.none`.
-/

namespace FrequencySlot

/-- One entry of `REGION_FREQUENCIES`: frequency parameters of a region. -/
structure RegionParams where
  freq_start : ℚ
  freq_end : ℚ
  spacing : ℚ
  description : String
deriving DecidableEq, Repr

/-- The `REGION_FREQUENCIES` dict of `frequency_slot.py`, in declaration order. -/
def REGION_FREQUENCIES : List (String × RegionParams) :=
  [ ("US",     ⟨902.0, 928.0,  0, "North America - 915 MHz ISM Band"⟩),
    ("EU_868", ⟨863.0, 870.0,  0, "Europe - 868 MHz ISM Band"⟩),
    ("EU_433", ⟨433.0, 434.79, 0, "Europe - 433 MHz ISM Band"⟩),
    ("ANZ",    ⟨915.0, 928.0,  0, "Australia/New Zealand - 915 MHz ISM Band"⟩),
    ("NZ_865", ⟨864.0, 868.0,  0, "New Zealand - 865 MHz Band"⟩),
    ("CN",     ⟨470.0, 510.0,  0, "China - 470-510 MHz Band"⟩),
    ("JP",     ⟨920.0, 928.0,  0, "Japan - 920 MHz Band"⟩),
    ("KR",     ⟨920.0, 923.0,  0, "Korea - 920 MHz Band"⟩),
    ("TW",     ⟨920.0, 925.0,  0, "Taiwan - 920 MHz Band"⟩),
    ("RU",     ⟨868.7, 869.2,  0, "Russia - 868 MHz Band"⟩),
    ("IN",     ⟨865.0, 867.0,  0, "India - 865 MHz Band"⟩),
    ("NP_865", ⟨865.0, 867.0,  0, "Nepal - 865 MHz Band"⟩),
    ("TH",     ⟨920.0, 925.0,  0, "Thailand - 920 MHz Band"⟩),
    ("MY_919", ⟨919.0, 924.0,  0, "Malaysia - 919 MHz Band"⟩),
    ("MY_433", ⟨433.0, 435.0,  0, "Malaysia - 433 MHz Band"⟩),
    ("SG_923", ⟨920.0, 925.0,  0, "Singapore - 923 MHz Band"⟩),
    ("UA_868", ⟨863.0, 870.0,  0, "Ukraine - 868 MHz Band"⟩),
    ("UA_433", ⟨433.0, 434.79, 0, "Ukraine - 433 MHz Band"⟩) ]

/-- `get_region_parameters`: dict lookup, `None` when the region is absent
(the Python function prints an error and returns `None`). -/
def get_region_parameters (region : String) : Option RegionParams :=
  (REGION_FREQUENCIES.find? (fun p => p.1 == region)).map Prod.snd

/-- `get_bandwidth_khz`: bandwidth in kHz from the channel name. -/
def get_bandwidth_khz (channel_name : String) : ℤ :=
  if channel_name = "ShortTurbo" then 500
  else if channel_name ∈ ["LongMod", "LongSlow"] then 125
  else 250

/-- `calculate_num_freq_slots`:
`math.floor((freq_end - freq_start) / (spacing + (bw / 1000)))`. -/
def calculate_num_freq_slots (freq_start freq_end spacing : ℚ) (bw : ℤ) : ℤ :=
  ⌊(freq_end - freq_start) / (spacing + (bw : ℚ) / 1000)⌋

/-- `hash_string`: djb2 over code points with a 32-bit mask after each step,
`hash_value = ((hash_value << 5) + hash_value + ord(c)) & 0xFFFFFFFF`. -/
def hash_string (s : String) : ℕ :=
  s.data.foldl
    (fun hash_value c => ((hash_value <<< 5) + hash_value + c.toNat) &&& 0xFFFFFFFF)
    5381

/-- `determine_frequency_slot`: `hash_string(channel_name) % num_freq_slots`.
Python `%` is floor-mod (`Int.fmod`) and raises `ZeroDivisionError` on a zero
modulus, modelled as `none`. -/
def determine_frequency_slot (channel_name : String) (num_freq_slots : ℤ) :
    Option ℤ :=
  if num_freq_slots = 0 then none
  else some (Int.fmod (hash_string channel_name : ℤ) num_freq_slots)

/-- `calculate_frequency`:
`freq_start + (bw / 2000) + (frequency_slot * (bw / 1000))`. -/
def calculate_frequency (freq_start : ℚ) (frequency_slot : ℤ) (bw : ℤ) : ℚ :=
  freq_start + (bw : ℚ) / 2000 + (frequency_slot : ℚ) * ((bw : ℚ) / 1000)

/-- The bandwidth selection in `main`: the `--bandwidth` argument when given,
otherwise `get_bandwidth_khz(channel_name)`. -/
def effective_bw (channel_name : String) (bandwidth : Option ℤ) : ℤ :=
  match bandwidth with
  | some b => b
  | none => get_bandwidth_khz channel_name

/-- The values `main` computes and hands to `print_results`. -/
structure ResolutionResult where
  num_freq_slots : ℤ
  frequency_slot : ℤ
  freq : ℚ
  bw : ℤ
deriving DecidableEq, Repr

/-- The resolution path of `main` (after the `--region help` branch):
region lookup, bandwidth selection, slot count, slot index, frequency.
`none` models the early return on an unknown region and the uncaught
`ZeroDivisionError` from a zero slot count. -/
def main (region channel_name : String) (bandwidth : Option ℤ) :
    Option ResolutionResult := do
  let region_params ← get_region_parameters region
  let bw := effective_bw channel_name bandwidth
  let num_freq_slots := calculate_num_freq_slots region_params.freq_start
      region_params.freq_end region_params.spacing bw
  let frequency_slot ← determine_frequency_slot channel_name num_freq_slots
  some ⟨num_freq_slots, frequency_slot,
        calculate_frequency region_params.freq_start frequency_slot bw, bw⟩

/-- Error kind of the spec's SlotResolver step 1. -/
inductive SlotCountError
  | DegenerateBand
deriving DecidableEq, Repr

/-- Modelled from the spec (SlotResolver step 1, for comparison with the
source's `calculate_num_freq_slots`): compute the floored slot count and
fail with `DegenerateBand` if the result is ≤ 0. -/
def slot_count_spec (freq_start freq_end spacing : ℚ) (bw : ℤ) :
    Except SlotCountError ℤ :=
  let n := ⌊(freq_end - freq_start) / (spacing + (bw : ℚ) / 1000)⌋
  if n ≤ 0 then .error .DegenerateBand else .ok n

/-! ## Helper lemmas -/

/-- One hash step: shift-add-mask equals multiply-by-33 modulo `2^32`. -/
theorem hash_step (h : ℕ) (c : Char) :
    ((h <<< 5) + h + c.toNat) &&& 0xFFFFFFFF = (h * 33 + c.toNat) % 2 ^ 32 := by
  have hm : (0xFFFFFFFF : ℕ) = 2 ^ 32 - 1 := rfl
  rw [hm, Nat.and_pow_two_sub_one_eq_mod]
  congr 1
  rw [Nat.shiftLeft_eq]
  ring

/-- The masked fold of `hash_string` equals the mod-`2^32` djb2 fold. -/
theorem hash_fold_eq (l : List Char) : ∀ h : ℕ,
    l.foldl (fun hv c => ((hv <<< 5) + hv + c.toNat) &&& 0xFFFFFFFF) h =
      l.foldl (fun hv c => (hv * 33 + c.toNat) % 2 ^ 32) h := by
  induction l with
  | nil => intro h; rfl
  | cons c t ih => intro h; simp only [List.foldl_cons, hash_step, ih]

/-- The mod-`2^32` fold stays below `2^32` when the seed does. -/
theorem hash_fold_lt (l : List Char) : ∀ h : ℕ, h < 2 ^ 32 →
    l.foldl (fun hv c => (hv * 33 + c.toNat) % 2 ^ 32) h < 2 ^ 32 := by
  induction l with
  | nil => intro h hh; exact hh
  | cons c t ih =>
      intro h _
      exact ih _ (Nat.mod_lt _ (by norm_num))

/-- Slot count for the US band at the 250 kHz default bandwidth. -/
theorem slots_US_250 : calculate_num_freq_slots 902.0 928.0 0 250 = 104 := by
  norm_num [calculate_num_freq_slots]

/-- Slot count for the US band at 125 kHz. -/
theorem slots_US_125 : calculate_num_freq_slots 902.0 928.0 0 125 = 208 := by
  norm_num [calculate_num_freq_slots]

/-- Slot count for the EU_433 band at 125 kHz. -/
theorem slots_EU433_125 : calculate_num_freq_slots 433.0 434.79 0 125 = 14 := by
  norm_num [calculate_num_freq_slots]

/-- The RU band (0.5 MHz wide) yields zero slots at a 600 kHz bandwidth. -/
theorem slots_RU_600 : calculate_num_freq_slots 868.7 869.2 0 600 = 0 := by
  norm_num [calculate_num_freq_slots]

/-- Evaluation of `main` when the region is known and the slot count nonzero. -/
theorem main_eq (region channel_name : String) (bandwidth : Option ℤ)
    (p : RegionParams)
    (h1 : get_region_parameters region = some p)
    (hn : calculate_num_freq_slots p.freq_start p.freq_end p.spacing
        (effective_bw channel_name bandwidth) ≠ 0) :
    main region channel_name bandwidth =
      some ⟨calculate_num_freq_slots p.freq_start p.freq_end p.spacing
              (effective_bw channel_name bandwidth),
            Int.fmod (hash_string channel_name : ℤ)
              (calculate_num_freq_slots p.freq_start p.freq_end p.spacing
                (effective_bw channel_name bandwidth)),
            calculate_frequency p.freq_start
              (Int.fmod (hash_string channel_name : ℤ)
                (calculate_num_freq_slots p.freq_start p.freq_end p.spacing
                  (effective_bw channel_name bandwidth)))
              (effective_bw channel_name bandwidth),
            effective_bw channel_name bandwidth⟩ := by
  unfold main determine_frequency_slot
  rw [h1]
  simp [hn]

/-- `main` hits the zero-modulus branch when the slot count is zero. -/
theorem main_none_of_zero (region channel_name : String) (bandwidth : Option ℤ)
    (p : RegionParams)
    (h1 : get_region_parameters region = some p)
    (h2 : calculate_num_freq_slots p.freq_start p.freq_end p.spacing
        (effective_bw channel_name bandwidth) = 0) :
    main region channel_name bandwidth = none := by
  unfold main
  rw [h1]
  simp [h2, determine_frequency_slot]

/-! ## Claims -/

/-- Claim C1, counterexample: with the RU band and a 600 kHz bandwidth the
computed slot count is ≤ 0, yet `calculate_num_freq_slots` returns the value 0
without any error (only the spec-modelled `slot_count_spec` raises
`DegenerateBand`), and the resolution proceeds to the slot-index computation,
which is where it fails (modulo by zero). -/
theorem C1_counterexample :
    calculate_num_freq_slots 868.7 869.2 0 600 = 0 ∧
    slot_count_spec 868.7 869.2 0 600 =
      Except.error SlotCountError.DegenerateBand ∧
    determine_frequency_slot "LongFast"
      (calculate_num_freq_slots 868.7 869.2 0 600) = none ∧
    main "RU" "LongFast" (some 600) = none := by
  refine ⟨slots_RU_600, ?_, ?_, ?_⟩
  · simp only [slot_count_spec]
    rw [show (⌊((869.2 : ℚ) - 868.7) / (0 + ((600 : ℤ) : ℚ) / 1000)⌋ : ℤ) = 0
          from slots_RU_600]
    norm_num
  · rw [slots_RU_600]; rfl
  · exact main_none_of_zero "RU" "LongFast" (some 600)
      ⟨868.7, 869.2, 0, "Russia - 868 MHz Band"⟩ rfl slots_RU_600

/-- Claim C1 (amended): when the computed slot count is 0,
`calculate_num_freq_slots` returns 0 without raising any error and without
clamping — no `DegenerateBand` error exists in the code (only the
spec-modelled `slot_count_spec` produces one) — and the resolution proceeds
to the slot-index computation, which fails there with a modulo by zero
(an uncaught `ZeroDivisionError` in Python, modelled as `none`). -/
theorem C1_slot_count_returns_zero_without_error
    (freq_start freq_end spacing : ℚ) (bw : ℤ) (channel_name : String)
    (h : calculate_num_freq_slots freq_start freq_end spacing bw = 0) :
    calculate_num_freq_slots freq_start freq_end spacing bw = 0 ∧
    slot_count_spec freq_start freq_end spacing bw =
      Except.error SlotCountError.DegenerateBand ∧
    determine_frequency_slot channel_name
      (calculate_num_freq_slots freq_start freq_end spacing bw) = none := by
  refine ⟨h, ?_, by rw [h]; rfl⟩
  simp only [slot_count_spec]
  rw [show (⌊(freq_end - freq_start) / (spacing + (bw : ℚ) / 1000)⌋ : ℤ) = 0
        from h]
  norm_num

/-- Claim C1, witness: the amended statement at the RU band with a 600 kHz
bandwidth. -/
theorem C1_witness :
    calculate_num_freq_slots 868.7 869.2 0 600 = 0 ∧
    slot_count_spec 868.7 869.2 0 600 =
      Except.error SlotCountError.DegenerateBand ∧
    determine_frequency_slot "LongSlow"
      (calculate_num_freq_slots 868.7 869.2 0 600) = none := by
  have h := C1_slot_count_returns_zero_without_error 868.7 869.2 0 600
    "LongSlow" slots_RU_600
  exact ⟨h.1, h.2.1, h.2.2⟩

/-- Claim C2: `hash_string` is the djb2 fold — seed 5381, then
`acc := (acc * 33 + code_point) % 2^32` per character in order; the empty
string hashes to 5381 and every result is a 32-bit value. -/
theorem C2_hash_string_djb2 (s : String) :
    hash_string s =
      s.data.foldl (fun hv c => (hv * 33 + c.toNat) % 2 ^ 32) 5381 ∧
    hash_string "" = 5381 ∧
    hash_string s < 2 ^ 32 := by
  refine ⟨hash_fold_eq s.data 5381, rfl, ?_⟩
  rw [hash_string, hash_fold_eq]
  exact hash_fold_lt s.data 5381 (by norm_num)

/-- Claim C3: `get_bandwidth_khz` returns 500 exactly for `"ShortTurbo"`,
125 exactly for `"LongMod"` or `"LongSlow"`, and 250 for every other string;
matching is exact and case-sensitive. -/
theorem C3_get_bandwidth_khz_classification (channel_name : String) :
    (get_bandwidth_khz channel_name = 500 ↔ channel_name = "ShortTurbo") ∧
    (get_bandwidth_khz channel_name = 125 ↔
      (channel_name = "LongMod" ∨ channel_name = "LongSlow")) ∧
    (channel_name ≠ "ShortTurbo" → channel_name ≠ "LongMod" →
      channel_name ≠ "LongSlow" → get_bandwidth_khz channel_name = 250) := by
  unfold get_bandwidth_khz
  split_ifs with h1 h2
  · subst h1; simp
  · simp only [List.mem_cons, List.not_mem_nil, or_false] at h2
    rcases h2 with rfl | rfl <;> simp_all
  · simp only [List.mem_cons, List.not_mem_nil, or_false, not_or] at h2
    simp_all

/-- Claim C4: a supplied bandwidth override is used as-is, regardless of the
name-derived default — resolving `"US"`/`"ShortTurbo"` with override 125 uses
effective bandwidth 125, not 500. -/
theorem C4_bandwidth_override_precedence (channel_name : String) (b : ℤ) :
    effective_bw channel_name (some b) = b ∧
    (main "US" "ShortTurbo" (some 125)).map ResolutionResult.bw = some 125 := by
  refine ⟨rfl, ?_⟩
  have hn : calculate_num_freq_slots 902.0 928.0 0 125 ≠ 0 := by
    rw [slots_US_125]; decide
  rw [main_eq "US" "ShortTurbo" (some 125)
      ⟨902.0, 928.0, 0, "North America - 915 MHz ISM Band"⟩ rfl hn]
  rfl

/-- Claim C5: the slot count is
`⌊(freq_end - freq_start) / (spacing + bw/1000)⌋`; for region EU_433 with
channel `"LongSlow"` and no override the bandwidth is 125 kHz and the slot
count is 14. -/
theorem C5_slot_count_formula (freq_start freq_end spacing : ℚ) (bw : ℤ) :
    calculate_num_freq_slots freq_start freq_end spacing bw =
      ⌊(freq_end - freq_start) / (spacing + (bw : ℚ) / 1000)⌋ ∧
    get_bandwidth_khz "LongSlow" = 125 ∧
    (main "EU_433" "LongSlow" none).map ResolutionResult.num_freq_slots =
      some 14 := by
  refine ⟨rfl, rfl, ?_⟩
  have hn : calculate_num_freq_slots 433.0 434.79 0 125 ≠ 0 := by
    rw [slots_EU433_125]; decide
  rw [main_eq "EU_433" "LongSlow" none
      ⟨433.0, 434.79, 0, "Europe - 433 MHz ISM Band"⟩ rfl hn]
  show some (calculate_num_freq_slots 433.0 434.79 0 125) = some 14
  rw [slots_EU433_125]

/-- Claim C6: for a slot count ≥ 1 the slot index is
`hash_string(channel_name) mod slot_count` with unsigned modulus semantics,
always in `[0, slot_count - 1]`. -/
theorem C6_slot_index_mod_bounds (channel_name : String)
    (num_freq_slots : ℤ) (h : 1 ≤ num_freq_slots) :
    determine_frequency_slot channel_name num_freq_slots =
      some ((hash_string channel_name : ℤ) % num_freq_slots) ∧
    0 ≤ (hash_string channel_name : ℤ) % num_freq_slots ∧
    (hash_string channel_name : ℤ) % num_freq_slots < num_freq_slots := by
  have hpos : (0 : ℤ) < num_freq_slots := h
  have hne : num_freq_slots ≠ 0 := by omega
  refine ⟨?_, Int.emod_nonneg _ hne, Int.emod_lt_of_pos _ hpos⟩
  unfold determine_frequency_slot
  rw [if_neg hne, Int.fmod_eq_emod _ (le_of_lt hpos)]

/-- Claim C6, witness: the slot-index characterisation at channel
`"LongFast"` with 104 slots. -/
theorem C6_witness : (1 : ℤ) ≤ 104 ∧
    (determine_frequency_slot "LongFast" 104 =
        some ((hash_string "LongFast" : ℤ) % 104) ∧
      0 ≤ (hash_string "LongFast" : ℤ) % 104 ∧
      (hash_string "LongFast" : ℤ) % 104 < 104) :=
  ⟨by decide, C6_slot_index_mod_bounds "LongFast" 104 (by decide)⟩

/-- Claim C7: the resolved frequency is
`freq_start + bw/2000 + frequency_slot * (bw/1000)` MHz, exactly, with no
rounding — e.g. slot 19 at 250 kHz from 902.0 MHz is exactly 906.875 MHz. -/
theorem C7_calculate_frequency_formula (freq_start : ℚ)
    (frequency_slot bw : ℤ) :
    calculate_frequency freq_start frequency_slot bw =
      freq_start + (bw : ℚ) / 2000 + (frequency_slot : ℚ) * ((bw : ℚ) / 1000) ∧
    calculate_frequency 902.0 19 250 = 906.875 :=
  ⟨rfl, by norm_num [calculate_frequency]⟩

/-- Claim C8: end-to-end for region `"US"`, channel `"LongFast"`, no
override — effective bandwidth 250 kHz, slot count 104, slot index
`hash_string("LongFast") mod 104 = 19`, frequency
`902.0 + 0.125 + 19 * 0.25 = 906.875` MHz. -/
theorem C8_us_longfast_end_to_end :
    main "US" "LongFast" none = some ⟨104, 19, 906.875, 250⟩ ∧
    effective_bw "LongFast" none = 250 ∧
    (hash_string "LongFast" : ℤ) % 104 = 19 ∧
    (906.875 : ℚ) = 902.0 + 0.125 + 19 * 0.25 := by
  refine ⟨?_, rfl, by decide, by norm_num⟩
  have hn : calculate_num_freq_slots 902.0 928.0 0 250 ≠ 0 := by
    rw [slots_US_250]; decide
  rw [main_eq "US" "LongFast" none
      ⟨902.0, 928.0, 0, "North America - 915 MHz ISM Band"⟩ rfl hn]
  show some (⟨calculate_num_freq_slots 902.0 928.0 0 250,
      Int.fmod (hash_string "LongFast" : ℤ)
        (calculate_num_freq_slots 902.0 928.0 0 250),
      calculate_frequency 902.0
        (Int.fmod (hash_string "LongFast" : ℤ)
          (calculate_num_freq_slots 902.0 928.0 0 250)) 250,
      250⟩ : ResolutionResult) = some ⟨104, 19, 906.875, 250⟩
  rw [slots_US_250,
    show Int.fmod (hash_string "LongFast" : ℤ) 104 = 19 from by decide,
    show calculate_frequency 902.0 19 250 = 906.875 from by
      norm_num [calculate_frequency]]

/-- Claim C9: every region of the table combined with each name-derivable
default bandwidth (125, 250, 500 kHz) yields a slot count ≥ 1. -/
theorem C9_all_regions_positive_slots :
    ∀ entry ∈ REGION_FREQUENCIES, ∀ bw ∈ ([125, 250, 500] : List ℤ),
      1 ≤ calculate_num_freq_slots entry.2.freq_start entry.2.freq_end
            entry.2.spacing bw := by
  intro e he bw hbw
  fin_cases he <;> fin_cases hbw <;> norm_num [calculate_num_freq_slots]

/-- Claim C9, witness: the US region with the 250 kHz default. -/
theorem C9_witness :
    ("US", (⟨902.0, 928.0, 0,
        "North America - 915 MHz ISM Band"⟩ : RegionParams)) ∈
      REGION_FREQUENCIES ∧
    (250 : ℤ) ∈ ([125, 250, 500] : List ℤ) ∧
    1 ≤ calculate_num_freq_slots 902.0 928.0 0 250 :=
  ⟨List.Mem.head _, by decide,
    C9_all_regions_positive_slots _ (List.Mem.head _) 250 (by decide)⟩

/-- Claim C10: when the computed slot count is 0, the slot-index step divides
by zero — `determine_frequency_slot` fails (Python raises an uncaught
`ZeroDivisionError`, modelled as `none`) and `main` produces no result; no
guard exists between the slot-count and slot-index computations. -/
theorem C10_zero_slots_division_by_zero (region channel_name : String)
    (bandwidth : Option ℤ) (p : RegionParams)
    (h1 : get_region_parameters region = some p)
    (h2 : calculate_num_freq_slots p.freq_start p.freq_end p.spacing
        (effective_bw channel_name bandwidth) = 0) :
    determine_frequency_slot channel_name
      (calculate_num_freq_slots p.freq_start p.freq_end p.spacing
        (effective_bw channel_name bandwidth)) = none ∧
    main region channel_name bandwidth = none :=
  ⟨by rw [h2]; rfl,
    main_none_of_zero region channel_name bandwidth p h1 h2⟩

/-- Claim C10, witness: region `"RU"` with a 600 kHz bandwidth override. -/
theorem C10_witness :
    get_region_parameters "RU" =
      some ⟨868.7, 869.2, 0, "Russia - 868 MHz Band"⟩ ∧
    calculate_num_freq_slots 868.7 869.2 0 600 = 0 ∧
    (determine_frequency_slot "LongFast"
        (calculate_num_freq_slots 868.7 869.2 0 600) = none ∧
      main "RU" "LongFast" (some 600) = none) :=
  ⟨rfl, slots_RU_600,
    C10_zero_slots_division_by_zero "RU" "LongFast" (some 600)
      ⟨868.7, 869.2, 0, "Russia - 868 MHz Band"⟩ rfl slots_RU_600⟩

end FrequencySlot
